import Mathlib

/-!
Verification of `src-tauri/python_scripts/sanity_check/try_https.py`, a
straight-line Python script. After bringing in urllib.request, the script
binds the literal URL, opens it, and branches on the status code:

  url = 'https://dl.espressif.com/'
  response = urllib.request.urlopen(url)
  if response.getcode() == 200:
      print("Request successful!")
      print("Response content:", response.read())
  else:
      print("Request failed. Status code:", response.getcode())
      exit(1)

The script is embedded as a pure function from the network environment
(what the single HTTPS GET observes) to the observable behaviour of the
process: the requests it issued, the lines it printed to standard output,
whether it consumed the response body, and how it terminated.
-/

namespace TryHttps

/-- The hardcoded URL literal from line 3 of the script. -/
def url : String := "https://dl.espressif.com/"

/-- What the network delivers for the single GET. `response code body` is the
final response the opener obtains after its handler chain (redirect handling
included) settles on one; `transportError` is a failure (DNS, TLS, connection
refused, timeout) before any response exists, surfaced by `urllib` as a raised
`URLError`. The body is a byte sequence, each entry below 256. -/
inductive NetOutcome where
  | transportError : NetOutcome
  | response : Nat → List Nat → NetOutcome
deriving DecidableEq

/-- The response handle `urlopen` returns on success: it exposes the integer
status code (`getcode()`) and the byte payload (`read()`). -/
structure HTTPResponse where
  code : Nat
  body : List Nat
deriving DecidableEq

/-- The three ways the `urlopen(url)` call on line 4 can come back to the
caller. -/
inductive UrlopenResult where
  | ok : HTTPResponse → UrlopenResult
  | httpError : Nat → UrlopenResult
  | urlError : UrlopenResult
deriving DecidableEq

/-- Semantics of `urllib.request.urlopen` for the default opener: a transport
failure raises `URLError`; a final response whose status code lies outside the
range 200 to 299 makes `HTTPErrorProcessor` raise `HTTPError` carrying that
code, so the caller never receives a handle for it; only a 2xx final response
is returned as an inspectable handle. -/
def urlopen : NetOutcome → UrlopenResult
  | NetOutcome.transportError => UrlopenResult.urlError
  | NetOutcome.response code body =>
      if 200 ≤ code ∧ code < 300 then UrlopenResult.ok ⟨code, body⟩
      else UrlopenResult.httpError code

/-- How the process terminated: falling off the end of the module, an explicit
`exit(n)` call (uncaught `SystemExit n`), or an uncaught exception with a
traceback. -/
inductive ExitKind where
  | normalEnd : ExitKind
  | exitCall : Nat → ExitKind
  | uncaughtException : ExitKind
deriving DecidableEq

/-- The process exit status CPython produces for each termination kind: 0 for
normal termination, `n` for `exit(n)`, 1 for an uncaught exception. -/
def exitStatus : ExitKind → Nat
  | ExitKind.normalEnd => 0
  | ExitKind.exitCall n => n
  | ExitKind.uncaughtException => 1

/-- The observable behaviour of one execution: the URLs requested in order,
the lines printed to standard output, whether `response.read()` was called,
and the termination kind. -/
structure ProgResult where
  requests : List String
  stdout : List String
  bodyRead : Bool
  exit : ExitKind
deriving DecidableEq

/-- One lowercase hexadecimal digit, for byte escapes in the bytes repr. -/
def hexDigit (n : Nat) : Char :=
  if n < 10 then Char.ofNat (48 + n) else Char.ofNat (87 + n)

/-- Two lowercase hexadecimal digits of a byte value. -/
def hexByte (c : Nat) : String :=
  String.mk [hexDigit (c / 16 % 16), hexDigit (c % 16)]

/-- How CPython renders one byte inside `repr` of a bytes object, given the
surrounding quote character: backslash and the quote are backslash-escaped,
tab, newline and carriage return use their short escapes, other bytes outside
printable ASCII use a `\xhh` escape, and printable bytes stand for themselves. -/
def byteEscape (quote : Nat) (c : Nat) : String :=
  if c = 92 then "\\\\"
  else if c = quote then "\\" ++ String.mk [Char.ofNat quote]
  else if c = 9 then "\\t"
  else if c = 10 then "\\n"
  else if c = 13 then "\\r"
  else if c < 32 ∨ 127 ≤ c then "\\x" ++ hexByte c
  else String.mk [Char.ofNat c]

/-- CPython `repr` of a bytes object, which is what `print` writes for a
non-string argument: prefix `b`, single quotes unless the payload contains a
single quote and no double quote, and each byte rendered by `byteEscape`. -/
def pyBytesRepr (body : List Nat) : String :=
  let quote : Nat := if body.contains 39 ∧ ¬ body.contains 34 then 34 else 39
  "b" ++ String.mk [Char.ofNat quote]
    ++ String.join (body.map (byteEscape quote))
    ++ String.mk [Char.ofNat quote]

/-- The whole script as a function of the process inputs and the network.
`argv` and `env` model the command line and the environment variables of the
process; the script reads neither (`sys` and `os` are never imported), so they
appear as parameters the body ignores. Line 4 issues the single GET to `url`;
if `urlopen` raises (`URLError` or `HTTPError`) the exception is uncaught and
the process dies with a traceback, nothing printed. On a returned handle,
`getcode() == 200` prints the success marker and the repr of `read()`, then
the module ends; any other code prints the failure line with the code and
calls `exit(1)`. -/
def tryHttps (argv : List String) (env : List (String × String))
    (net : NetOutcome) : ProgResult :=
  match urlopen net with
  | UrlopenResult.urlError =>
      { requests := [url], stdout := [], bodyRead := false
      , exit := ExitKind.uncaughtException }
  | UrlopenResult.httpError _ =>
      { requests := [url], stdout := [], bodyRead := false
      , exit := ExitKind.uncaughtException }
  | UrlopenResult.ok response =>
      if response.code = 200 then
        { requests := [url]
        , stdout := ["Request successful!",
                     "Response content: " ++ pyBytesRepr response.body]
        , bodyRead := true
        , exit := ExitKind.normalEnd }
      else
        { requests := [url]
        , stdout := ["Request failed. Status code: " ++ toString response.code]
        , bodyRead := false
        , exit := ExitKind.exitCall 1 }

/-- The network outcomes on which the script takes its success branch: a final
response with status code exactly 200. -/
def isSuccess : NetOutcome → Bool
  | NetOutcome.transportError => false
  | NetOutcome.response code _ => code == 200

/-- Evaluation lemma: `urlopen` on a final response is the 2xx range check. -/
theorem urlopen_response (code : Nat) (body : List Nat) :
    urlopen (NetOutcome.response code body) =
      if 200 ≤ code ∧ code < 300 then UrlopenResult.ok ⟨code, body⟩
      else UrlopenResult.httpError code := rfl

/-- Evaluation lemma: the success branch, on a status-200 response. -/
theorem tryHttps_response_200 (argv : List String)
    (env : List (String × String)) (body : List Nat) :
    tryHttps argv env (NetOutcome.response 200 body) =
      { requests := [url]
      , stdout := ["Request successful!",
                   "Response content: " ++ pyBytesRepr body]
      , bodyRead := true
      , exit := ExitKind.normalEnd } := rfl

/-- Evaluation lemma: the explicit failure branch, on an inspectable 2xx
response other than 200. -/
theorem tryHttps_response_fail2xx (argv : List String)
    (env : List (String × String)) (code : Nat) (body : List Nat)
    (h : 200 ≤ code ∧ code < 300) (hne : code ≠ 200) :
    tryHttps argv env (NetOutcome.response code body) =
      { requests := [url]
      , stdout := ["Request failed. Status code: " ++ toString code]
      , bodyRead := false
      , exit := ExitKind.exitCall 1 } := by
  unfold tryHttps
  rw [urlopen_response, if_pos h]
  simp [hne]

/-- Evaluation lemma: a final response outside the 2xx range makes `urlopen`
raise, so the process dies on the uncaught `HTTPError` with empty output. -/
theorem tryHttps_response_non2xx (argv : List String)
    (env : List (String × String)) (code : Nat) (body : List Nat)
    (h : ¬ (200 ≤ code ∧ code < 300)) :
    tryHttps argv env (NetOutcome.response code body) =
      { requests := [url], stdout := [], bodyRead := false
      , exit := ExitKind.uncaughtException } := by
  unfold tryHttps
  rw [urlopen_response, if_neg h]

/-- Evaluation lemma: a transport failure dies on the uncaught `URLError`. -/
theorem tryHttps_transportError (argv : List String)
    (env : List (String × String)) :
    tryHttps argv env NetOutcome.transportError =
      { requests := [url], stdout := [], bodyRead := false
      , exit := ExitKind.uncaughtException } := rfl

/-- Case analysis: every execution issues the single request to `url`. -/
theorem tryHttps_requests (argv : List String)
    (env : List (String × String)) (net : NetOutcome) :
    (tryHttps argv env net).requests = [url] := by
  cases net with
  | transportError => rfl
  | response code body =>
      by_cases h : 200 ≤ code ∧ code < 300
      · by_cases hne : code = 200
        · subst hne
          rw [tryHttps_response_200]
        · rw [tryHttps_response_fail2xx argv env code body h hne]
      · rw [tryHttps_response_non2xx argv env code body h]


/-- C1: whenever the GET yields a response with status code exactly 200 — an
empty body included — the script prints the success marker line, prints a
content line carrying the response body, and terminates normally with exit
status 0, without any explicit exit call. -/
theorem success_path_prints_and_exits_zero (argv : List String)
    (env : List (String × String)) (body : List Nat) :
    (tryHttps argv env (NetOutcome.response 200 body)).stdout =
      ["Request successful!", "Response content: " ++ pyBytesRepr body] ∧
    (tryHttps argv env (NetOutcome.response 200 body)).exit =
      ExitKind.normalEnd ∧
    exitStatus (tryHttps argv env (NetOutcome.response 200 body)).exit = 0 := by
  rw [tryHttps_response_200]
  exact ⟨rfl, rfl, rfl⟩

/-- C2: whenever `urlopen` hands back an inspectable response handle whose
status code differs from 200, the script prints the failure line carrying that
observed status code and terminates through `exit(1)` with exit status 1. -/
theorem non200_inspectable_fails_with_code (argv : List String)
    (env : List (String × String)) (net : NetOutcome) (resp : HTTPResponse)
    (hok : urlopen net = UrlopenResult.ok resp) (hne : resp.code ≠ 200) :
    (tryHttps argv env net).stdout =
      ["Request failed. Status code: " ++ toString resp.code] ∧
    (tryHttps argv env net).exit = ExitKind.exitCall 1 ∧
    exitStatus (tryHttps argv env net).exit = 1 := by
  unfold tryHttps
  rw [hok]
  simp [hne, exitStatus]

/-- Witness for C2 at the concrete inspectable status 201 with empty body. -/
theorem non200_inspectable_fails_with_code_witness :
    (tryHttps [] [] (NetOutcome.response 201 [])).stdout =
      ["Request failed. Status code: 201"] ∧
    (tryHttps [] [] (NetOutcome.response 201 [])).exit = ExitKind.exitCall 1 ∧
    exitStatus (tryHttps [] [] (NetOutcome.response 201 [])).exit = 1 := by
  have h := non200_inspectable_fails_with_code [] []
    (NetOutcome.response 201 []) ⟨201, []⟩ (by decide) (by decide)
  exact h

/-- C3: classification is exact integer equality with 200: a response with
status code 201 takes the failure path — failure line carrying 201 and exit
status 1 via `exit(1)` — and never the success path. -/
theorem status_201_is_failure (argv : List String)
    (env : List (String × String)) (body : List Nat) :
    (tryHttps argv env (NetOutcome.response 201 body)).stdout =
      ["Request failed. Status code: 201"] ∧
    (tryHttps argv env (NetOutcome.response 201 body)).exit =
      ExitKind.exitCall 1 ∧
    exitStatus (tryHttps argv env (NetOutcome.response 201 body)).exit = 1 ∧
    "Request successful!" ∉
      (tryHttps argv env (NetOutcome.response 201 body)).stdout := by
  rw [tryHttps_response_fail2xx argv env 201 body (by omega) (by omega)]
  refine ⟨by decide, rfl, rfl, by decide⟩

/-- C4 counterexample: at status 404 the claimed failure marker is never
printed — standard output stays empty because `urlopen` raises `HTTPError`
before the status check runs, and the process dies on the uncaught
exception. -/
theorem status_404_prints_no_marker :
    (tryHttps [] [] (NetOutcome.response 404 [])).stdout = [] ∧
    (tryHttps [] [] (NetOutcome.response 404 [])).exit =
      ExitKind.uncaughtException := by
  decide

/-- C4 amended: for a final response with status 404 or 500, `urlopen` raises
`HTTPError` before `getcode()` can be inspected, so the program prints
nothing — no failure marker — and terminates via the uncaught exception with
exit status 1, not through the explicit `exit(1)`. -/
theorem status_404_500_uncaught (argv : List String)
    (env : List (String × String)) (body : List Nat) :
    ((tryHttps argv env (NetOutcome.response 404 body)).stdout = [] ∧
     (tryHttps argv env (NetOutcome.response 404 body)).exit =
       ExitKind.uncaughtException ∧
     exitStatus (tryHttps argv env (NetOutcome.response 404 body)).exit = 1) ∧
    ((tryHttps argv env (NetOutcome.response 500 body)).stdout = [] ∧
     (tryHttps argv env (NetOutcome.response 500 body)).exit =
       ExitKind.uncaughtException ∧
     exitStatus (tryHttps argv env (NetOutcome.response 500 body)).exit = 1) := by
  rw [tryHttps_response_non2xx argv env 404 body (by omega),
      tryHttps_response_non2xx argv env 500 body (by omega)]
  exact ⟨⟨rfl, rfl, rfl⟩, ⟨rfl, rfl, rfl⟩⟩

/-- C5: when the transport itself fails and no response is obtained, the
process terminates on the uncaught `URLError`, and its exit status is never
0. -/
theorem transport_failure_never_exits_zero (argv : List String)
    (env : List (String × String)) :
    (tryHttps argv env NetOutcome.transportError).exit =
      ExitKind.uncaughtException ∧
    exitStatus (tryHttps argv env NetOutcome.transportError).exit ≠ 0 := by
  rw [tryHttps_transportError]
  exact ⟨rfl, by decide⟩

/-- C6: the observable behaviour — requests issued, text printed, body
consumption, termination — is a function of the network response alone: two
executions with arbitrary command lines and environments but the same network
outcome behave identically, and the one request sent is always the literal
URL. -/
theorem behaviour_depends_only_on_response (argv1 : List String)
    (env1 : List (String × String)) (argv2 : List String)
    (env2 : List (String × String)) (net : NetOutcome) :
    tryHttps argv1 env1 net = tryHttps argv2 env2 net ∧
    (tryHttps argv1 env1 net).requests = [url] := by
  exact ⟨rfl, tryHttps_requests argv1 env1 net⟩

/-- C7: every execution issues exactly one outbound request, the GET to the
literal URL, and never a second one; and every execution that does not hit the
status-200 success case ends the process with exit status 1. -/
theorem single_request_no_retry (argv : List String)
    (env : List (String × String)) (net : NetOutcome) :
    (tryHttps argv env net).requests = [url] ∧
    (isSuccess net = false → exitStatus (tryHttps argv env net).exit = 1) := by
  refine ⟨tryHttps_requests argv env net, ?_⟩
  intro hns
  cases net with
  | transportError => rfl
  | response code body =>
      have hne : code ≠ 200 := by
        intro hc
        subst hc
        exact absurd hns (by simp [isSuccess])
      by_cases h : 200 ≤ code ∧ code < 300
      · rw [tryHttps_response_fail2xx argv env code body h hne]
        rfl
      · rw [tryHttps_response_non2xx argv env code body h]
        rfl

/-- Witness for C7 at the concrete non-success outcome of status 404. -/
theorem single_request_no_retry_witness :
    (tryHttps [] [] (NetOutcome.response 404 [])).requests = [url] ∧
    exitStatus (tryHttps [] [] (NetOutcome.response 404 [])).exit = 1 := by
  have h := single_request_no_retry [] [] (NetOutcome.response 404 [])
  exact ⟨h.1, h.2 (by decide)⟩

/-- C8: the explicit failure branch — the `exit(1)` call — is taken exactly
for final responses whose code lies in the 2xx range but is not 200; for any
final response outside 200 to 299, `urlopen` raises `HTTPError` carrying that
code before `getcode()` is inspected, the process dies on the uncaught
exception, and the failure marker is never printed. -/
theorem failure_branch_reachable_only_2xx (argv : List String)
    (env : List (String × String)) (code : Nat) (body : List Nat) :
    ((tryHttps argv env (NetOutcome.response code body)).exit =
        ExitKind.exitCall 1 ↔ (200 ≤ code ∧ code < 300 ∧ code ≠ 200)) ∧
    (¬ (200 ≤ code ∧ code < 300) →
      urlopen (NetOutcome.response code body) = UrlopenResult.httpError code ∧
      (tryHttps argv env (NetOutcome.response code body)).stdout = [] ∧
      (tryHttps argv env (NetOutcome.response code body)).exit =
        ExitKind.uncaughtException) := by
  constructor
  · constructor
    · intro hc
      by_cases h : 200 ≤ code ∧ code < 300
      · refine ⟨h.1, h.2, ?_⟩
        intro he
        subst he
        rw [tryHttps_response_200] at hc
        simp at hc
      · rw [tryHttps_response_non2xx argv env code body h] at hc
        exact absurd hc (by decide)
    · intro hc
      rw [tryHttps_response_fail2xx argv env code body ⟨hc.1, hc.2.1⟩ hc.2.2]
  · intro h
    refine ⟨?_, ?_, ?_⟩
    · rw [urlopen_response, if_neg h]
    · rw [tryHttps_response_non2xx argv env code body h]
    · rw [tryHttps_response_non2xx argv env code body h]

/-- Witness for C8 at the concrete status 404: urlopen raises, nothing is
printed, the process dies on the uncaught exception, and the explicit
failure branch is not taken. -/
theorem failure_branch_reachable_only_2xx_witness :
    urlopen (NetOutcome.response 404 []) = UrlopenResult.httpError 404 ∧
    (tryHttps [] [] (NetOutcome.response 404 [])).stdout = [] ∧
    (tryHttps [] [] (NetOutcome.response 404 [])).exit =
      ExitKind.uncaughtException ∧
    ¬ (tryHttps [] [] (NetOutcome.response 404 [])).exit =
      ExitKind.exitCall 1 := by
  have h := failure_branch_reachable_only_2xx [] [] 404 []
  have h2 := h.2 (by omega)
  refine ⟨h2.1, h2.2.1, h2.2.2, ?_⟩
  intro hc
  have h3 := h.1.mp hc
  omega

/-- C9: on the success path the content line is the label followed by the
CPython repr of the bytes object returned by `read()`: a body holding the two
bytes of OK prints as the five characters b, quote, O, K, quote, and an empty
body prints as b followed by two quotes — not as decoded raw text. -/
theorem body_printed_as_bytes_repr (argv : List String)
    (env : List (String × String)) (body : List Nat) :
    (tryHttps argv env (NetOutcome.response 200 body)).stdout.get? 1 =
      some ("Response content: " ++ pyBytesRepr body) ∧
    pyBytesRepr [79, 75] = "b\x27OK\x27" ∧
    pyBytesRepr [] = "b\x27\x27" ∧
    pyBytesRepr [79, 75] ≠ "OK" := by
  rw [tryHttps_response_200]
  exact ⟨rfl, by decide, by decide, by decide⟩

/-- C10: the response body is consumed only on the success path — the failure
cases never call `read()` — and away from the success path the whole
observable behaviour is independent of the body, the status code being the
only response datum that can reach the output. -/
theorem body_read_only_on_success (argv : List String)
    (env : List (String × String)) (net : NetOutcome) :
    (tryHttps argv env net).bodyRead = isSuccess net ∧
    (∀ code body1 body2, code ≠ 200 →
      tryHttps argv env (NetOutcome.response code body1) =
        tryHttps argv env (NetOutcome.response code body2)) := by
  constructor
  · cases net with
    | transportError => rfl
    | response code body =>
        by_cases hne : code = 200
        · subst hne
          rw [tryHttps_response_200]
          simp [isSuccess]
        · have hs : isSuccess (NetOutcome.response code body) = false := by
            simp [isSuccess, hne]
          rw [hs]
          by_cases h : 200 ≤ code ∧ code < 300
          · rw [tryHttps_response_fail2xx argv env code body h hne]
          · rw [tryHttps_response_non2xx argv env code body h]
  · intro code body1 body2 hne
    by_cases h : 200 ≤ code ∧ code < 300
    · rw [tryHttps_response_fail2xx argv env code body1 h hne,
          tryHttps_response_fail2xx argv env code body2 h hne]
    · rw [tryHttps_response_non2xx argv env code body1 h,
          tryHttps_response_non2xx argv env code body2 h]

/-- Witness for C10 at concrete inputs: status 201 does not read the body and
ignores its content entirely. -/
theorem body_read_only_on_success_witness :
    (tryHttps [] [] (NetOutcome.response 201 [79, 75])).bodyRead =
      isSuccess (NetOutcome.response 201 [79, 75]) ∧
    tryHttps [] [] (NetOutcome.response 201 [79, 75]) =
      tryHttps [] [] (NetOutcome.response 201 []) := by
  have h := body_read_only_on_success [] [] (NetOutcome.response 201 [79, 75])
  exact ⟨h.1, h.2 201 [79, 75] [] (by decide)⟩

end TryHttps
